import Mathlib

/-!
Shallow embedding of the WeebRaphael backend (src/main.py): the keyword
extraction / genre resolution pipeline, the AniList query construction and
response handling, and the user-favorites document-store operations.

External collaborators are modelled as explicit inputs:
the spaCy part-of-speech tagger is a black box, so text processing is
embedded over the tagged token sequence the tagger produces; the HTTP
transport is a black box, so each fetch function is split into its request
construction (the GraphQL variables it sends) and its response handling
(what it does with the upstream reply); MongoDB is modelled as the list of
user documents in the users collection, and the wall clock as an explicit
timestamp argument.
-/

namespace WeebRaphael

/-- Part-of-speech tag of a token, as classified by the external tagger.
`extract_keywords` only distinguishes ADJ, NOUN, and everything else. -/
inductive Pos where
  | ADJ
  | NOUN
  | OTHER
deriving DecidableEq, Repr

/-- A token of the input text together with the tag the external spaCy
tagger assigned to it (`token.text`, `token.pos_`). -/
structure Token where
  text : String
  pos : Pos
deriving DecidableEq, Repr

/-- The tagged document the tagger produces for one input string. -/
abbrev Doc := List Token

/-- src/main.py lines 53-65: partition the tagged tokens into the ordered
list of adjective texts and the ordered list of noun texts.  The token
text is appended verbatim (no case normalization). -/
def extract_keywords : Doc → List String × List String
  | [] => ([], [])
  | t :: ts =>
    let rest := extract_keywords ts
    if t.pos = Pos.ADJ then (t.text :: rest.1, rest.2)
    else if t.pos = Pos.NOUN then (rest.1, t.text :: rest.2)
    else rest

/-- src/main.py lines 32-51: the static keyword-to-genre lexicon
GENRE_MAPPING, in source order. -/
def GENRE_MAPPING : List (String × String) :=
  [("action", "Action"),
   ("adventure", "Adventure"),
   ("comedy", "Comedy"),
   ("drama", "Drama"),
   ("fantasy", "Fantasy"),
   ("horror", "Horror"),
   ("romance", "Romance"),
   ("scifi", "Sci-Fi"),
   ("science", "Sci-Fi"),
   ("fiction", "Sci-Fi"),
   ("slice", "Slice of Life"),
   ("life", "Slice of Life"),
   ("sports", "Sports"),
   ("thriller", "Thriller"),
   ("mystery", "Mystery"),
   ("psychological", "Psychological"),
   ("supernatural", "Supernatural"),
   ("magic", "Magic")]

/-- Python dict membership plus indexing (`keyword in d` then `d[keyword]`),
over the association list that models the dict: first binding of the key. -/
def dict_lookup {α : Type} : List (String × α) → String → Option α
  | [], _ => none
  | (k, v) :: rest, key => if key = k then some v else dict_lookup rest key

/-- src/main.py lines 68-71: the loop of `map_to_genres`, over an explicit
lexicon: for each keyword present in the lexicon, append its genre label. -/
def genres_loop (lex : List (String × String)) : List String → List String
  | [] => []
  | k :: ks =>
    match dict_lookup lex k with
    | some g => g :: genres_loop lex ks
    | none => genres_loop lex ks

/-- src/main.py lines 67-74: `map_to_genres` with the lexicon it reads made
an explicit argument. -/
def map_to_genres_with (lex : List (String × String)) (keywords : List String) : List String :=
  let genres := genres_loop lex keywords
  if genres = [] then ["Action", "Adventure"] else genres

/-- src/main.py lines 67-74: `map_to_genres`, reading the module-level
GENRE_MAPPING. -/
def map_to_genres (keywords : List String) : List String :=
  map_to_genres_with GENRE_MAPPING keywords

/-- State-passing translation of a call to `map_to_genres`: the observable
state of the resolver is the module-level lexicon it reads; the function
body contains no assignment to it, so the call returns the state as it
found it together with the computed genre list. -/
def map_to_genres_call (lex : List (String × String)) (keywords : List String) :
    List String × List (String × String) :=
  (map_to_genres_with lex keywords, lex)

/-- A JSON value, as returned by `response.json()` on the upstream reply. -/
inductive Json where
  | null
  | str (s : String)
  | num (n : Int)
  | arr (items : List Json)
  | obj (fields : List (String × Json))

/-- A Python runtime exception, as raised by the membership tests,
indexing and field accesses the handlers perform on untyped JSON. -/
inductive PyError where
  | typeError
  | keyError
deriving DecidableEq, Repr

/-- Python dict membership `key in d` over the association list that
models the dict. -/
def dict_mem {α : Type} (l : List (String × α)) (key : String) : Bool :=
  (dict_lookup l key).isSome

/-- Python equality test of a JSON value against a string: true exactly
for the equal string value. -/
def Json.eq_str : Json → String → Bool
  | .str s, key => s == key
  | _, _ => false

/-- Whether the second character list starts with the first. -/
def chars_lead : List Char → List Char → Bool
  | [], _ => true
  | _ :: _, [] => false
  | c :: cs, d :: ds => c == d && chars_lead cs ds

/-- Whether the first character list occurs contiguously in the second. -/
def chars_occur (needle : List Char) : List Char → Bool
  | [] => chars_lead needle []
  | d :: ds => chars_lead needle (d :: ds) || chars_occur needle ds

/-- Python substring test `needle in haystack` on strings. -/
def str_occur (needle haystack : String) : Bool :=
  chars_occur needle.toList haystack.toList

/-- Python membership test `key in x` on a JSON value: key membership on
a dict, an equality scan on a list, a substring test on a string, and a
raised TypeError on null or a number. -/
def Json.has_key : Json → String → Except PyError Bool
  | .obj fields, key => .ok (dict_mem fields key)
  | .arr items, key => .ok (items.any fun j => j.eq_str key)
  | .str s, key => .ok (str_occur key s)
  | _, _ => .error .typeError

/-- Python indexing `x[key]` with a string key on a JSON value: the field
value on a dict holding the key, a raised KeyError on a dict without it,
and a raised TypeError on anything else. -/
def Json.index : Json → String → Except PyError Json
  | .obj fields, key =>
    match dict_lookup fields key with
    | some v => .ok v
    | none => .error .keyError
  | _, _ => .error .typeError

/-- Python truthiness of a JSON value (`if anime_list:`). -/
def Json.truthy : Json → Bool
  | .null => false
  | .str s => !s.isEmpty
  | .num n => n != 0
  | .arr items => !items.isEmpty
  | .obj fields => !fields.isEmpty

/-- Python iteration `for anime in anime_list` over a JSON value: the
items of a list, the keys of a dict, the one-character substrings of a
string, and a raised TypeError on null or a number. -/
def Json.elems : Json → Except PyError (List Json)
  | .arr items => .ok items
  | .obj fields => .ok (fields.map fun p => Json.str p.1)
  | .str s => .ok (s.toList.map fun c => Json.str (String.singleton c))
  | _ => .error .typeError

/-- The upstream HTTP reply: status code and parsed JSON body. -/
structure ProviderResponse where
  status_code : Nat
  body : Json

/-- src/main.py lines 106-107 (and 161-162): the guarded selection on the
response body — the membership tests of `data`, `Page` and `media` in
short-circuit order, each followed on success by the indexing the source
performs: `some media` when all three tests pass, `none` when one of them
evaluates to false, and the exception a test or an indexing raises on a
body of the wrong shape. -/
def page_media_check (body : Json) : Except PyError (Option Json) := do
  let t1 ← body.has_key "data"
  if t1 then do
    let v1 ← body.index "data"
    let t2 ← v1.has_key "Page"
    if t2 then do
      let v2 ← v1.index "Page"
      let t3 ← v2.has_key "media"
      if t3 then do
        let media ← v2.index "media"
        pure (some media)
      else pure none
    else pure none
  else pure none

/-- src/main.py lines 102-108: response handling of
`fetch_anime_recommendations` — on a 200 reply return the media value when
the body passes the data/Page/media tests, the empty list when a test
fails, and propagate the exception a body of the wrong shape raises; any
non-200 reply gives the empty list. -/
def fetch_anime_recommendations_response (resp : ProviderResponse) : Except PyError Json :=
  if resp.status_code = 200 then
    match page_media_check resp.body with
    | .ok (some media) => .ok media
    | .ok none => .ok (Json.arr [])
    | .error e => .error e
  else .ok (Json.arr [])

/-- src/main.py lines 157-163: response handling of `fetch_anime_search`,
identical to the recommendations fetch. -/
def fetch_anime_search_response (resp : ProviderResponse) : Except PyError Json :=
  if resp.status_code = 200 then
    match page_media_check resp.body with
    | .ok (some media) => .ok media
    | .ok none => .ok (Json.arr [])
    | .error e => .error e
  else .ok (Json.arr [])

/-- GraphQL variables sent by `fetch_anime_recommendations`. -/
structure RecommendRequest where
  genres : List String
  perPage : Nat
deriving DecidableEq, Repr

/-- src/main.py lines 97-100: the variables dict of
`fetch_anime_recommendations`. -/
def fetch_anime_recommendations_request (genre : List String) : RecommendRequest :=
  { genres := genre, perPage := 10 }

/-- GraphQL variables sent by `fetch_anime_search`. -/
structure SearchRequest where
  search : String
  perPage : Nat
deriving DecidableEq, Repr

/-- src/main.py lines 152-155: the variables dict of `fetch_anime_search`. -/
def fetch_anime_search_request (query : String) : SearchRequest :=
  { search := query, perPage := 5 }

/-- src/main.py lines 112-114 in `get_recommendations`:
`all_keywords = adjectives + nouns`. -/
def recommend_keywords (doc : Doc) : List String :=
  let extracted := extract_keywords doc
  let adjectives := extracted.1
  let nouns := extracted.2
  adjectives ++ nouns

/-- src/main.py lines 110-118: the provider request issued by the
`/recommend` handler for one tagged input. -/
def get_recommendations_request (doc : Doc) : RecommendRequest :=
  fetch_anime_recommendations_request (map_to_genres (recommend_keywords doc))

/-- src/main.py lines 166-171: the provider request issued by the
`/search` handler for one tagged input: the search phrase is the nouns
joined by single spaces. -/
def search_anime_request (doc : Doc) : SearchRequest :=
  let extracted := extract_keywords doc
  let nouns := extracted.2
  let search_query := String.intercalate " " nouns
  fetch_anime_search_request search_query

/-- One media item as the handlers reshape it for the HTTP reply; each
field holds the JSON value taken from the provider item. -/
structure AnimeOut where
  title : Json
  description : Json
  genres : Json
  coverImage : Json
  siteUrl : Json

/-- src/main.py lines 120-128 (and 172-182): the per-item reshaping done
by both handlers through unguarded key accesses; a missing key or a value
of the wrong shape raises. -/
def normalize_anime (anime : Json) : Except PyError AnimeOut := do
  let title ← anime.index "title"
  let romaji ← title.index "romaji"
  let description ← anime.index "description"
  let genres ← anime.index "genres"
  let cover ← anime.index "coverImage"
  let large ← cover.index "large"
  let siteUrl ← anime.index "siteUrl"
  pure { title := romaji, description := description, genres := genres,
         coverImage := large, siteUrl := siteUrl }

/-- An HTTPException as FastAPI would surface it. -/
structure HttpError where
  status_code : Nat
  detail : String
deriving DecidableEq, Repr

/-- The outcome of one handler call: a JSON reply, a deliberately raised
HTTPException, or an unhandled Python exception — which the server
surfaces as an internal error, distinct from the static 404. -/
inductive HandlerResult where
  | success (items : List AnimeOut)
  | httpError (e : HttpError)
  | pythonError (e : PyError)

/-- src/main.py lines 118-130: what the `/recommend` handler does with the
upstream reply: a truthy fetch result is iterated and reshaped item by
item, a falsy one raises the static 404, and a Python exception anywhere
propagates unhandled. -/
def get_recommendations_response (resp : ProviderResponse) : HandlerResult :=
  match fetch_anime_recommendations_response resp with
  | .error e => .pythonError e
  | .ok anime_list =>
    if anime_list.truthy then
      match anime_list.elems with
      | .error e => .pythonError e
      | .ok items =>
        match items.mapM normalize_anime with
        | .ok animes => .success animes
        | .error e => .pythonError e
    else .httpError { status_code := 404, detail := "No recommendations found" }

/-- src/main.py lines 171-183: what the `/search` handler does with the
upstream reply. -/
def search_anime_response (resp : ProviderResponse) : HandlerResult :=
  match fetch_anime_search_response resp with
  | .error e => .pythonError e
  | .ok anime_list =>
    if anime_list.truthy then
      match anime_list.elems with
      | .error e => .pythonError e
      | .ok items =>
        match items.mapM normalize_anime with
        | .ok animes => .success animes
        | .error e => .pythonError e
    else .httpError { status_code := 404, detail := "No anime found matching that query" }

/-- One entry of a favorites array (src/main.py line 226). -/
structure FavoriteEntry where
  anime_id : String
  title : String
  added_at : String
deriving DecidableEq, Repr

/-- One entry of a watch-history array (src/main.py line 237). -/
structure HistoryEntry where
  anime_id : String
  title : String
  watched_at : String
deriving DecidableEq, Repr

/-- A document of the users collection (src/main.py lines 203-209). -/
structure UserDoc where
  username : String
  email : String
  preferences : List String
  watch_history : List HistoryEntry
  favorites : List FavoriteEntry
deriving DecidableEq, Repr

/-- The users collection: the list of stored user documents. -/
abbrev UsersCollection := List UserDoc

/-- The request body of the add-favorite route (src/main.py lines 190-192). -/
structure FavoriteAnime where
  anime_id : String
  title : String
deriving DecidableEq, Repr

/-- Mongo `find_one` on the username filter: the first document whose
username field matches, if any. -/
def find_one : UsersCollection → String → Option UserDoc
  | [], _ => none
  | u :: us, username =>
    if u.username = username then some u else find_one us username

/-- Mongo `update_one` with a `push` on `favorites` under the username
filter: the first matching document gets the entry appended at the end of
its favorites array; all other documents are untouched. -/
def update_one_push_favorite : UsersCollection → String → FavoriteEntry → UsersCollection
  | [], _, _ => []
  | u :: us, username, entry =>
    if u.username = username then
      { u with favorites := u.favorites ++ [entry] } :: us
    else
      u :: update_one_push_favorite us username entry

/-- src/main.py lines 220-230: `add_favorite` over an explicit collection
state and an explicit timestamp (`datetime.utcnow().isoformat()`); returns
the HTTP outcome together with the collection after the call. -/
def add_favorite (coll : UsersCollection) (username : String) (anime : FavoriteAnime)
    (now : String) : Except HttpError String × UsersCollection :=
  match find_one coll username with
  | none => (Except.error { status_code := 404, detail := "User not found" }, coll)
  | some _ =>
    let anime_entry : FavoriteEntry :=
      { anime_id := anime.anime_id, title := anime.title, added_at := now }
    (Except.ok "Anime added to favorites", update_one_push_favorite coll username anime_entry)

/-! Helper lemmas. -/

theorem extract_keywords_eq_filter (doc : Doc) :
    extract_keywords doc =
      ((doc.filter fun t => decide (t.pos = Pos.ADJ)).map Token.text,
       (doc.filter fun t => decide (t.pos = Pos.NOUN)).map Token.text) := by
  induction doc with
  | nil => rfl
  | cons t ts ih =>
    rcases t with ⟨txt, pos⟩
    cases pos <;> simp [extract_keywords, ih]

theorem genres_loop_eq_filterMap (lex : List (String × String)) (keywords : List String) :
    genres_loop lex keywords = keywords.filterMap (dict_lookup lex) := by
  induction keywords with
  | nil => rfl
  | cons k ks ih =>
    cases h : dict_lookup lex k <;> simp [genres_loop, h, ih]

theorem dict_lookup_some_mem_values {α : Type} (l : List (String × α)) (key : String)
    (v : α) (h : dict_lookup l key = some v) : v ∈ l.map Prod.snd := by
  induction l with
  | nil => simp [dict_lookup] at h
  | cons p rest ih =>
    rcases p with ⟨k, w⟩
    by_cases hk : key = k
    · simp [dict_lookup, hk] at h
      simp [h]
    · simp [dict_lookup, hk] at h
      simpa using Or.inr (ih h)

theorem mem_genres_loop (lex : List (String × String)) (keywords : List String)
    (k g : String) (hk : k ∈ keywords) (hg : dict_lookup lex k = some g) :
    g ∈ genres_loop lex keywords := by
  rw [genres_loop_eq_filterMap]
  exact List.mem_filterMap.mpr ⟨k, hk, hg⟩

theorem find_one_append_of_not_found (pre : UsersCollection) (rest : UsersCollection)
    (username : String) (hpre : ∀ v ∈ pre, v.username ≠ username) :
    find_one (pre ++ rest) username = find_one rest username := by
  induction pre with
  | nil => rfl
  | cons v vs ih =>
    have hv : v.username ≠ username := hpre v (by simp)
    simp only [List.cons_append, find_one, if_neg hv]
    exact ih fun w hw => hpre w (by simp [hw])

theorem update_one_push_favorite_append (pre post : UsersCollection) (u : UserDoc)
    (username : String) (entry : FavoriteEntry)
    (hpre : ∀ v ∈ pre, v.username ≠ username) (hu : u.username = username) :
    update_one_push_favorite (pre ++ u :: post) username entry =
      pre ++ { u with favorites := u.favorites ++ [entry] } :: post := by
  induction pre with
  | nil => simp [update_one_push_favorite, hu]
  | cons v vs ih =>
    have hv : v.username ≠ username := hpre v (by simp)
    simp only [List.cons_append, update_one_push_favorite, if_neg hv]
    exact congrArg (v :: ·) (ih fun w hw => hpre w (by simp [hw]))

theorem find_one_eq_none_of_absent (coll : UsersCollection) (username : String)
    (h : ∀ u ∈ coll, u.username ≠ username) : find_one coll username = none := by
  induction coll with
  | nil => rfl
  | cons u us ih =>
    have hu : u.username ≠ username := h u (by simp)
    simp only [find_one, if_neg hu]
    exact ih fun w hw => h w (by simp [hw])

/-! Claim theorems. -/

/-- C1: for every keyword sequence in which no keyword is a key of the
lexicon (the empty sequence included), `map_to_genres` returns exactly the
default sequence Action, Adventure. -/
theorem map_to_genres_default_of_no_match (keywords : List String)
    (h : ∀ k ∈ keywords, dict_lookup GENRE_MAPPING k = none) :
    map_to_genres keywords = ["Action", "Adventure"] := by
  have hloop : genres_loop GENRE_MAPPING keywords = [] := by
    rw [genres_loop_eq_filterMap]
    exact List.filterMap_eq_nil_iff.mpr h
  simp [map_to_genres, map_to_genres_with, hloop]

/-- C1 witness: the keyword xyzzy matches no lexicon key and resolves to
the default pair. -/
theorem map_to_genres_default_of_no_match_witness :
    (∀ k ∈ ["xyzzy"], dict_lookup GENRE_MAPPING k = none) ∧
    map_to_genres ["xyzzy"] = ["Action", "Adventure"] :=
  ⟨by decide, map_to_genres_default_of_no_match ["xyzzy"] (by decide)⟩

/-- C2 counterexample: the extractor forwards the capitalized token text
Action verbatim, and the lexicon lookup on it fails even though the lookup
on its lowercase form succeeds — so no lowercase normalization happens
before the lookup. -/
theorem extract_keywords_not_lowercased_counterexample :
    (extract_keywords [{ text := "Action", pos := Pos.NOUN }]).2 = ["Action"] ∧
    "Action" ≠ "action" ∧
    dict_lookup GENRE_MAPPING "Action" = none ∧
    dict_lookup GENRE_MAPPING "action" = some "Action" :=
  ⟨rfl, by decide, by decide, by decide⟩

/-- C2 amended: the extractor forwards each kept token text verbatim (no
case normalization), and the lexicon lookup is case-sensitive: the
capitalized form Action matches no key while its lowercase form does. -/
theorem extract_keywords_verbatim_case_sensitive (doc : Doc) :
    extract_keywords doc =
      ((doc.filter fun t => decide (t.pos = Pos.ADJ)).map Token.text,
       (doc.filter fun t => decide (t.pos = Pos.NOUN)).map Token.text) ∧
    dict_lookup GENRE_MAPPING "Action" = none ∧
    dict_lookup GENRE_MAPPING "action" = some "Action" :=
  ⟨extract_keywords_eq_filter doc, by decide, by decide⟩

/-- C3: the resolver loop appends, for each keyword that is a lexicon key
and in input order, the mapped genre label, filtering nothing (the loop is
exactly a filterMap through the lexicon, which keeps duplicates); and any
keyword sequence containing the exact lowercase keyword action yields a
result containing Action. -/
theorem map_to_genres_appends_in_order (keywords : List String) :
    genres_loop GENRE_MAPPING keywords = keywords.filterMap (dict_lookup GENRE_MAPPING) ∧
    ("action" ∈ keywords → "Action" ∈ map_to_genres keywords) := by
  refine ⟨genres_loop_eq_filterMap _ _, fun hmem => ?_⟩
  have hg : "Action" ∈ genres_loop GENRE_MAPPING keywords :=
    mem_genres_loop _ _ "action" "Action" hmem (by decide)
  have hne : ¬genres_loop GENRE_MAPPING keywords = [] := by
    intro h0
    rw [h0] at hg
    simp at hg
  simp only [map_to_genres, map_to_genres_with, if_neg hne]
  exact hg

/-- C3 witness: a sequence holding action twice resolves to a result
containing Action. -/
theorem map_to_genres_appends_in_order_witness :
    "action" ∈ ["action", "action"] ∧ "Action" ∈ map_to_genres ["action", "action"] :=
  ⟨by decide, (map_to_genres_appends_in_order ["action", "action"]).2 (by decide)⟩

/-- C4: the keyword sequence the recommend handler passes to the resolver
is the adjectives, in input order, followed by the nouns, in input order. -/
theorem recommend_keywords_adjectives_then_nouns (doc : Doc) :
    recommend_keywords doc =
      (doc.filter fun t => decide (t.pos = Pos.ADJ)).map Token.text ++
      (doc.filter fun t => decide (t.pos = Pos.NOUN)).map Token.text := by
  simp [recommend_keywords, extract_keywords_eq_filter]

/-- C5: the search handler sends the nouns joined by single spaces as its
search phrase with a page size of 5; with no nouns the phrase is empty. -/
theorem search_request_from_nouns_only (doc : Doc) :
    search_anime_request doc =
      { search := String.intercalate " "
          ((doc.filter fun t => decide (t.pos = Pos.NOUN)).map Token.text),
        perPage := 5 } ∧
    ((doc.filter fun t => decide (t.pos = Pos.NOUN)) = [] →
      (search_anime_request doc).search = "") := by
  have h1 : search_anime_request doc =
      { search := String.intercalate " "
          ((doc.filter fun t => decide (t.pos = Pos.NOUN)).map Token.text),
        perPage := 5 } := by
    simp [search_anime_request, fetch_anime_search_request, extract_keywords_eq_filter]
  refine ⟨h1, fun h0 => ?_⟩
  rw [h1]
  simp only [h0, List.map_nil]
  rfl

/-- C5 witness: an input with a single adjective and no noun yields the
empty search phrase. -/
theorem search_request_from_nouns_only_witness :
    (([{ text := "dark", pos := Pos.ADJ }] : Doc).filter
        fun t => decide (t.pos = Pos.NOUN)) = [] ∧
    (search_anime_request [{ text := "dark", pos := Pos.ADJ }]).search = "" :=
  ⟨by decide, (search_request_from_nouns_only [{ text := "dark", pos := Pos.ADJ }]).2 (by decide)⟩

/-- C6 counterexample: a 200 reply whose JSON body is null lacks the
expected data/Page/media structure, yet the fetch raises a TypeError at
the membership test instead of returning the empty list, and the
recommend handler propagates that exception instead of failing with the
static Not Found message. -/
theorem upstream_null_body_counterexample :
    fetch_anime_recommendations_response { status_code := 200, body := Json.null } =
      Except.error PyError.typeError ∧
    fetch_anime_recommendations_response { status_code := 200, body := Json.null } ≠
      Except.ok (Json.arr []) ∧
    get_recommendations_response { status_code := 200, body := Json.null } =
      HandlerResult.pythonError PyError.typeError ∧
    get_recommendations_response { status_code := 200, body := Json.null } ≠
      HandlerResult.httpError { status_code := 404, detail := "No recommendations found" } :=
  ⟨rfl, fun h => Except.noConfusion h, rfl, fun h => HandlerResult.noConfusion h⟩

/-- C6 amended: for every upstream reply that is non-200, or whose body
lets the data/Page/media membership tests evaluate without raising and
fail, or that carries an empty media list, both fetch operations return
the empty result list and both handlers fail with their static Not Found
message; a body on which a membership test itself raises propagates as an
unhandled exception instead. -/
theorem upstream_malformed_coerced_to_no_results (resp : ProviderResponse)
    (h : resp.status_code ≠ 200 ∨ page_media_check resp.body = Except.ok none ∨
         page_media_check resp.body = Except.ok (some (Json.arr []))) :
    fetch_anime_recommendations_response resp = Except.ok (Json.arr []) ∧
    fetch_anime_search_response resp = Except.ok (Json.arr []) ∧
    get_recommendations_response resp =
      HandlerResult.httpError { status_code := 404, detail := "No recommendations found" } ∧
    search_anime_response resp =
      HandlerResult.httpError { status_code := 404, detail := "No anime found matching that query" } := by
  have hrec : fetch_anime_recommendations_response resp = Except.ok (Json.arr []) := by
    unfold fetch_anime_recommendations_response
    rcases h with h | h | h
    · rw [if_neg h]
    · by_cases hs : resp.status_code = 200
      · rw [if_pos hs, h]
      · rw [if_neg hs]
    · by_cases hs : resp.status_code = 200
      · rw [if_pos hs, h]
      · rw [if_neg hs]
  have hsearch : fetch_anime_search_response resp = Except.ok (Json.arr []) := by
    unfold fetch_anime_search_response
    unfold fetch_anime_recommendations_response at hrec
    exact hrec
  refine ⟨hrec, hsearch, ?_, ?_⟩
  · simp only [get_recommendations_response, hrec]
    rfl
  · simp only [search_anime_response, hsearch]
    rfl

/-- C6 witness: a 200 reply whose body is an empty object fails the first
membership test cleanly, and the recommend handler fails with the static
404 message. -/
theorem upstream_malformed_coerced_to_no_results_witness :
    page_media_check (Json.obj []) = Except.ok none ∧
    get_recommendations_response { status_code := 200, body := Json.obj [] } =
      HandlerResult.httpError { status_code := 404, detail := "No recommendations found" } :=
  ⟨rfl,
   (upstream_malformed_coerced_to_no_results
      { status_code := 200, body := Json.obj [] } (Or.inr (Or.inl rfl))).2.2.1⟩

/-- C7: adding a favorite for a username absent from the users collection
fails with 404 User not found and leaves the collection exactly as it was
— no user document is created. -/
theorem add_favorite_user_not_found (coll : UsersCollection) (username : String)
    (anime : FavoriteAnime) (now : String)
    (h : ∀ u ∈ coll, u.username ≠ username) :
    add_favorite coll username anime now =
      (Except.error { status_code := 404, detail := "User not found" }, coll) := by
  simp [add_favorite, find_one_eq_none_of_absent coll username h]

/-- C7 witness: adding a favorite for bob when only alice is stored fails
with 404 and keeps the collection unchanged. -/
theorem add_favorite_user_not_found_witness :
    (∀ u ∈ ([⟨"alice", "alice@mail", [], [], []⟩] : UsersCollection), u.username ≠ "bob") ∧
    add_favorite [⟨"alice", "alice@mail", [], [], []⟩] "bob" ⟨"a2", "New"⟩ "t1" =
      (Except.error { status_code := 404, detail := "User not found" },
       [⟨"alice", "alice@mail", [], [], []⟩]) :=
  ⟨by decide,
   add_favorite_user_not_found [⟨"alice", "alice@mail", [], [], []⟩] "bob"
     ⟨"a2", "New"⟩ "t1" (by decide)⟩

/-- C8: the resolver is a pure deterministic function of the lexicon it
reads and the keyword sequence: a call returns the resolver state exactly
as it found it, and a second call on the state left by the first returns
the same output. -/
theorem map_to_genres_pure_deterministic (lex : List (String × String))
    (keywords : List String) :
    (map_to_genres_call lex keywords).2 = lex ∧
    (map_to_genres_call (map_to_genres_call lex keywords).2 keywords).1 =
      (map_to_genres_call lex keywords).1 :=
  ⟨rfl, rfl⟩

/-- C9: the resolver output is never empty and every element of it is one
of the genre labels stored as values of the static lexicon. -/
theorem map_to_genres_never_empty_in_lexicon_values (keywords : List String) :
    map_to_genres keywords ≠ [] ∧
    ∀ g ∈ map_to_genres keywords, g ∈ GENRE_MAPPING.map Prod.snd := by
  constructor
  · by_cases h0 : genres_loop GENRE_MAPPING keywords = [] <;>
      simp [map_to_genres, map_to_genres_with, h0]
  · intro g hg
    simp only [map_to_genres, map_to_genres_with] at hg
    by_cases h0 : genres_loop GENRE_MAPPING keywords = []
    · rw [if_pos h0] at hg
      simp only [List.mem_cons, List.not_mem_nil, or_false] at hg
      rcases hg with rfl | rfl
      · decide
      · decide
    · rw [if_neg h0] at hg
      rw [genres_loop_eq_filterMap] at hg
      obtain ⟨k, _, hlk⟩ := List.mem_filterMap.mp hg
      exact dict_lookup_some_mem_values _ _ _ hlk

/-- C9 witness: the keyword magic resolves to a nonempty output and the
label Magic is a lexicon value. -/
theorem map_to_genres_never_empty_in_lexicon_values_witness :
    map_to_genres ["magic"] ≠ [] ∧ "Magic" ∈ GENRE_MAPPING.map Prod.snd :=
  ⟨(map_to_genres_never_empty_in_lexicon_values ["magic"]).1,
   (map_to_genres_never_empty_in_lexicon_values ["magic"]).2 "Magic" (by decide)⟩

/-- C10: a successful add-favorite call for a stored username changes the
collection only by appending the one new entry (anime id, title,
timestamp) at the end of the favorites array of the first document with
that username; its other fields and every other document are unchanged. -/
theorem add_favorite_frame (pre post : UsersCollection) (u : UserDoc)
    (username : String) (anime : FavoriteAnime) (now : String)
    (hu : u.username = username) (hpre : ∀ v ∈ pre, v.username ≠ username) :
    add_favorite (pre ++ u :: post) username anime now =
      (Except.ok "Anime added to favorites",
       pre ++ { u with favorites := u.favorites ++
           [{ anime_id := anime.anime_id, title := anime.title, added_at := now }] }
         :: post) := by
  have hfind : find_one (pre ++ u :: post) username = some u := by
    rw [find_one_append_of_not_found pre (u :: post) username hpre]
    simp [find_one, hu]
  simp only [add_favorite, hfind]
  rw [update_one_push_favorite_append pre post u username _ hpre hu]

/-- C10 witness: pushing a favorite for bob in a three-user store appends
the entry to the favorites of bob and leaves alice, carol and the other
fields of bob untouched. -/
theorem add_favorite_frame_witness :
    (∀ v ∈ ([⟨"alice", "alice@mail", [], [], []⟩] : UsersCollection), v.username ≠ "bob") ∧
    add_favorite
        [⟨"alice", "alice@mail", [], [], []⟩,
         ⟨"bob", "bob@mail", ["action"], [], [⟨"a1", "Old", "t0"⟩]⟩,
         ⟨"carol", "carol@mail", [], [], []⟩]
        "bob" ⟨"a2", "New"⟩ "t1" =
      (Except.ok "Anime added to favorites",
       [⟨"alice", "alice@mail", [], [], []⟩,
        ⟨"bob", "bob@mail", ["action"], [], [⟨"a1", "Old", "t0"⟩, ⟨"a2", "New", "t1"⟩]⟩,
        ⟨"carol", "carol@mail", [], [], []⟩]) :=
  ⟨by decide,
   add_favorite_frame [⟨"alice", "alice@mail", [], [], []⟩]
     [⟨"carol", "carol@mail", [], [], []⟩]
     ⟨"bob", "bob@mail", ["action"], [], [⟨"a1", "Old", "t0"⟩]⟩
     "bob" ⟨"a2", "New"⟩ "t1" rfl (by decide)⟩

end WeebRaphael
